import Mathlib

/-!
Verification development for the `sme-vuln-patch-toolkit` probe scripts.

The two probe engines are shallowly embedded here:
  * `src/tools/scanner/tls_cipher_audit.py` (TLS probe, cipher classifier,
    target parsing, batch loop)
  * `src/tools/scanner/weak_configuration_scanner.py` (HTTP redirect walk,
    security-header classifier, batch loop)

Network traffic is modelled by an oracle: a function from the request data
(URL, or host and port) to either an exception message or the raw response
data the Python libraries would deliver.  Every Python string operation used
by the scripts is re-implemented structurally over `String.data` so that all
definitions evaluate inside the kernel.
-/
set_option maxHeartbeats 1000000

deriving instance DecidableEq for Except

/-! ### String primitives (structural re-implementations of the Python ops) -/

/-- Python `str.lower` (ASCII, which is all the scripts compare). -/
def pyLower (s : String) : String := ⟨s.data.map Char.toLower⟩

/-- Python `str.upper` (ASCII). -/
def pyUpper (s : String) : String := ⟨s.data.map Char.toUpper⟩

/-- Strip leading and trailing whitespace from a character list. -/
def trimChars (cs : List Char) : List Char :=
  ((cs.dropWhile Char.isWhitespace).reverse.dropWhile Char.isWhitespace).reverse

/-- Python `str.strip()`. -/
def pyStrip (s : String) : String := ⟨trimChars s.data⟩

/-- Split a character list on a separator character. -/
def splitOnCharAux (sep : Char) : List Char → List Char → List (List Char)
  | [], acc => [acc.reverse]
  | c :: t, acc =>
    if c = sep then acc.reverse :: splitOnCharAux sep t []
    else splitOnCharAux sep t (c :: acc)

/-- Python `str.split(sep)` for a one-character separator. -/
def pySplit (s : String) (sep : Char) : List String :=
  (splitOnCharAux sep s.data []).map (fun l => ⟨l⟩)

/-- Python `str.startswith(pre)`. -/
def pyStartsWith (s pre : String) : Bool := pre.data.isPrefixOf s.data

/-- Membership of a single character in a string (Python `c in s`). -/
def strContainsChar (s : String) (c : Char) : Bool := s.data.contains c

/-- Contiguous-sublist test on character lists. -/
def listContainsSub : List Char → List Char → Bool
  | [], p => p.isEmpty
  | c :: t, p => p.isPrefixOf (c :: t) || listContainsSub t p

/-- Python substring test `sub in s`. -/
def strContains (s sub : String) : Bool := listContainsSub s.data sub.data

/-- Python `sep.join(l)`. -/
def joinWith (sep : String) : List String → String
  | [] => ""
  | a :: t => t.foldl (fun acc x => acc ++ sep ++ x) a

/-- Python `str.isdigit()` restricted to ASCII digits. -/
def pyIsDigit (s : String) : Bool := !s.data.isEmpty && s.data.all Char.isDigit

/-- Numeric value of a list of ASCII digits. -/
def digitsVal (cs : List Char) : Nat :=
  cs.foldl (fun acc c => acc * 10 + (c.toNat - 48)) 0

/-! ### TLS audit embedding (`tls_cipher_audit.py`) -/

/-- The `WEAK_PROTOCOLS` set from the source (kept as a list; membership only). -/
def WEAK_PROTOCOLS : List String := ["SSLv2", "SSLv3", "TLSv1", "TLSv1.1"]

/-- The `WEAK_CIPHER_SUBSTRINGS` list from the source. -/
def WEAK_CIPHER_SUBSTRINGS : List String := ["RC4", "3DES", "DES-", "MD5", "NULL", "EXPORT"]

/-- The `TLSResult` dataclass. -/
structure TLSResult where
  target : String
  hostname : String
  port : Nat
  tls_version : Option String
  cipher_name : Option String
  cipher_protocol : Option String
  cipher_bits : Option Int
  weak_protocol : Bool
  weak_cipher : Bool
  error : Option String
deriving DecidableEq, Repr

/-- Python `target.rsplit(":", 1)` (split on the last colon; only called when a colon
is present). -/
def rsplitColon (s : String) : String × String :=
  let parts := pySplit s ':'
  (joinWith ":" parts.dropLast, parts.getLastD "")

/-- Source `parse_target`: parse a `host:port` string into a `TLSResult` shell, or
raise `ValueError` (modelled as `Except.error` with the message). -/
def parse_target (target0 : String) : Except String TLSResult :=
  let target := pyStrip target0
  if target = "" then Except.error "Empty target entry"
  else if !(strContainsChar target ':') then
    Except.ok { target := target, hostname := target, port := 443,
                tls_version := none, cipher_name := none, cipher_protocol := none,
                cipher_bits := none, weak_protocol := false, weak_cipher := false,
                error := none }
  else
    let hp := rsplitColon target
    if !(pyIsDigit hp.2) then Except.error ("Invalid port in target: " ++ target)
    else
      Except.ok { target := target, hostname := hp.1, port := digitsVal hp.2.data,
                  tls_version := none, cipher_name := none, cipher_protocol := none,
                  cipher_bits := none, weak_protocol := false, weak_cipher := false,
                  error := none }

/-- Source `is_weak_protocol`. -/
def is_weak_protocol (tls_version : Option String) : Bool :=
  match tls_version with
  | none => false
  | some v => if v = "" then false else WEAK_PROTOCOLS.contains v

/-- Source `is_weak_cipher`. -/
def is_weak_cipher (cipher_name : Option String) (cipher_bits : Option Int) : Bool :=
  match cipher_name with
  | none => false
  | some name =>
    if name = "" then false
    else if WEAK_CIPHER_SUBSTRINGS.any (fun bad => strContains (pyUpper name) bad) then true
    else
      match cipher_bits with
      | some bits => decide (bits < 128)
      | none => false

/-- What a completed TLS handshake reports: `ssock.version()` (already folded
through the inner `try`, hence optional) and `ssock.cipher()` (a
name/protocol/bits triple, or `None`). -/
structure TLSObs where
  version : Option String
  cipher : Option (String × String × Int)
deriving DecidableEq, Repr

/-- Source `check_target`: connect, record negotiated details, classify.  The network
is the oracle `net`: either an exception message (DNS failure, refused
connection, handshake failure, timeout) or the handshake observation. -/
def check_target (net : String → Nat → Except String TLSObs) (t : TLSResult) : TLSResult :=
  match net t.hostname t.port with
  | Except.error e => { t with error := some e }
  | Except.ok obs =>
    let t1 := { t with tls_version := obs.version }
    let t2 :=
      match obs.cipher with
      | some c =>
        { t1 with
          cipher_name := some c.1
          cipher_protocol := some c.2.1
          cipher_bits := some c.2.2 }
      | none => t1
    { t2 with weak_protocol := is_weak_protocol t2.tls_version,
              weak_cipher := is_weak_cipher t2.cipher_name t2.cipher_bits }

/-- The per-target body of the batch loop in `main`: a parse failure becomes an
error result (hostname = raw string, port 0, message prefixed with
`Invalid target format:`), otherwise the target is probed. -/
def tlsResultFor (net : String → Nat → Except String TLSObs) (t_str : String) : TLSResult :=
  match parse_target t_str with
  | Except.error e =>
    { target := t_str, hostname := t_str, port := 0, tls_version := none,
      cipher_name := none, cipher_protocol := none, cipher_bits := none,
      weak_protocol := false, weak_cipher := false,
      error := some ("Invalid target format: " ++ e) }
  | Except.ok t => check_target net t

/-- The batch loop of `main`: one result per gathered target, in order. -/
def runTLSBatch (net : String → Nat → Except String TLSObs) (targets : List String) : List TLSResult :=
  targets.map (tlsResultFor net)

/-- The `--targets` handling in `gather_targets`: split on commas, strip, drop
empties. -/
def splitCommaTargets (s : String) : List String :=
  (pySplit s ',').filterMap (fun t =>
    let t := pyStrip t
    if t = "" then none else some t)

/-- Source `load_targets_from_file`: strip lines, drop blanks and `#` comments. -/
def fileTargets (lines : List String) : List String :=
  lines.filterMap (fun l =>
    let l := pyStrip l
    if l = "" || pyStartsWith l "#" then none else some l)

/-- The raw target list assembled by `gather_targets` before deduplication:
`--target` is appended verbatim (only skipped when the Python string is
falsy, i.e. empty), `--targets` entries are split and stripped, file lines
are stripped. -/
def collectTargets (target : Option String) (targets : Option String)
    (inputLines : Option (List String)) : List String :=
  (match target with
   | some s => if s = "" then [] else [s]
   | none => []) ++
  (match targets with
   | some s => if s = "" then [] else splitCommaTargets s
   | none => []) ++
  (match inputLines with
   | some lines => fileTargets lines
   | none => [])

/-- The duplicate-removal loop of `gather_targets` (`seen` set plus ordered
list; membership in the accumulator plays the role of the set). -/
def dedupPreservingOrder (l : List String) : List String :=
  l.foldl (fun acc t => if acc.contains t then acc else acc ++ [t]) []

/-- Source `gather_targets` (the file itself is already read into `inputLines`). -/
def gather_targets (target : Option String) (targets : Option String)
    (inputLines : Option (List String)) : Except String (List String) :=
  let unique := dedupPreservingOrder (collectTargets target targets inputLines)
  if unique.isEmpty then
    Except.error "No targets specified. Use --target, --targets, or --input."
  else Except.ok unique

/-! ### HTTP scanner embedding (`weak_configuration_scanner.py`) -/

/-- The `REQUIRED_HEADERS` list from the source. -/
def REQUIRED_HEADERS : List String :=
  ["strict-transport-security", "content-security-policy", "x-content-type-options",
   "x-frame-options", "referrer-policy"]

/-- The `OPTIONAL_HEADERS` list from the source. -/
def OPTIONAL_HEADERS : List String := ["permissions-policy", "x-xss-protection"]

/-- One HTTP response as the probe sees it: `resp.url`, `resp.status_code`,
and `resp.headers` (a case-insensitive mapping, modelled as an association
list looked up by lowercased name, later entries shadowing earlier ones just
as a `dict` comprehension keeps the last value). -/
structure Response where
  url : String
  status_code : Int
  headers : List (String × String)
deriving DecidableEq, Repr

/-- Case-insensitive header lookup (`requests` `CaseInsensitiveDict` access and
the `{k.lower(): v ...}` comprehension; `name` is lowercase at every call
site). -/
def headerGet (hs : List (String × String)) (name : String) : Option String :=
  (hs.reverse.find? (fun p => pyLower p.1 == name)).map (fun p => p.2)

/-- Python `headers.get(name)` followed by a Python truthiness test: an absent header
and a present-but-empty value both count as "no". -/
def getTruthy (hs : List (String × String)) (name : String) : Option String :=
  match headerGet hs name with
  | some v => if v = "" then none else some v
  | none => none

/-- The `SiteCheckResult` dataclass. -/
structure SiteCheckResult where
  url : String
  final_url : Option String
  scheme : Option String
  status_code : Option Int
  redirect_chain : String
  https_downgrade : Bool
  missing_required_headers : String
  missing_optional_headers : String
  header_findings : String
  error : Option String
deriving DecidableEq, Repr

/-- Characters `urllib.parse` allows inside a URL scheme. -/
def schemeChar (c : Char) : Bool := c.isAlphanum || c = '+' || c = '-' || c = '.'

/-- Python `urlparse(u).scheme`: the text before the first colon, lowercased, when it
starts with an ASCII letter and uses only scheme characters; `""` otherwise. -/
def schemeOf (u : String) : String :=
  match pySplit u ':' with
  | [] => ""
  | [_] => ""
  | pre :: _ :: _ =>
    match pre.data with
    | [] => ""
    | c :: _ => if c.isAlpha && pre.data.all schemeChar then pyLower pre else ""

/-- Source `normalize_url`: strip, reject empty, default the scheme to `https`. -/
def normalize_url (url0 : String) : Except String String :=
  let url := pyStrip url0
  if url = "" then Except.error "Empty URL"
  else if schemeOf url = "" then Except.ok ("https://" ++ url)
  else Except.ok url

/-- The manual redirect walk inside `fetch_url`.  `responses` already holds
every hop received so far (the initial response included), `resp` is the most
recent of them.  The loop runs while the status is 3xx, a `Location` header is
present, and fewer than `max_redirects = 10` responses are collected.  A raised
request is caught by the surrounding `try`, which returns `([], e)` —
discarding everything collected.  `fuel` is only a termination device: it
starts at 10 and cannot reach 0 before the length guard stops the loop. -/
def fetchGo (net : String → Except String Response) (ujoin : String → String → String) :
    Response → List Response → Nat → List Response × Option String
  | _, responses, 0 => (responses, none)
  | resp, responses, fuel + 1 =>
    if decide (300 ≤ resp.status_code) && decide (resp.status_code < 400) &&
       (headerGet resp.headers "location").isSome && decide (responses.length < 10) then
      let location := (headerGet resp.headers "location").getD ""
      let next_url := ujoin resp.url location
      match net next_url with
      | Except.error e => ([], some e)
      | Except.ok r => fetchGo net ujoin r (responses ++ [r]) fuel
    else (responses, none)

/-- Source `fetch_url`: issue the initial request and walk the redirect chain.
`net` is the network oracle (`session.get` with redirects disabled); `ujoin`
models `requests.compat.urljoin`, which resolves relative and absolute
locations and is treated as an uninterpreted external function. -/
def fetchUrl (net : String → Except String Response) (ujoin : String → String → String)
    (url : String) : List Response × Option String :=
  match net url with
  | Except.error e => ([], some e)
  | Except.ok r => fetchGo net ujoin r [r] 10

/-- Python `int(s)`: optional surrounding whitespace, optional sign, then
digits in which single underscores may appear between digits. -/
def pyDigitsTail : List Char → Bool
  | [] => true
  | '_' :: rest =>
    (match rest with
     | c :: _ => c.isDigit
     | [] => false) && pyDigitsTail rest
  | c :: rest => c.isDigit && pyDigitsTail rest

/-- Python `int(s)` for the HSTS `max-age` value; `none` models a raised
`ValueError`. -/
def pyInt? (s : String) : Option Int :=
  let t := pyStrip s
  let core : String := if pyStartsWith t "-" || pyStartsWith t "+" then ⟨t.data.drop 1⟩ else t
  let sign : Int := if pyStartsWith t "-" then -1 else 1
  match core.data with
  | [] => none
  | c :: rest =>
    if c.isDigit && pyDigitsTail rest then
      some (sign * (digitsVal ((c :: rest).filter (fun ch => ch ≠ '_')) : Int))
    else none

/-- Python `s.split("=", 1)[1]`: the text after the first equals sign (only used when
one is present). -/
def afterFirstEq (s : String) : String :=
  match pySplit s '=' with
  | [] => ""
  | [_] => ""
  | _ :: rest => joinWith "=" rest

/-- The HSTS block of `check_security_headers` (the `try` around the crude
`max-age` parse catches exactly the `int` conversion). -/
def hstsFindingsOf (hs : List (String × String)) : List String :=
  match getTruthy hs "strict-transport-security" with
  | none => ["HSTS missing (for HTTPS site)"]
  | some hsts =>
    if !(strContains (pyLower hsts) "max-age") then ["HSTS present but max-age missing"]
    else
      let parts := (pySplit hsts ';').map pyStrip
      let max_age_part := (parts.filter (fun p => pyStartsWith (pyLower p) "max-age")).headD ""
      if strContainsChar max_age_part '=' then
        match pyInt? (afterFirstEq max_age_part) with
        | some val => if val < 15552000 then ["HSTS max-age < 6 months (consider increasing)"] else []
        | none => ["Could not parse HSTS max-age"]
      else []

/-- The CSP block of `check_security_headers`. -/
def cspFindingsOf (hs : List (String × String)) : List String :=
  if (getTruthy hs "content-security-policy").isNone then
    ["Content-Security-Policy header missing"]
  else []

/-- The X-Content-Type-Options block of `check_security_headers`. -/
def xctoFindingsOf (hs : List (String × String)) : List String :=
  match getTruthy hs "x-content-type-options" with
  | none => ["X-Content-Type-Options missing"]
  | some v =>
    if pyLower v ≠ "nosniff" then
      ["X-Content-Type-Options is \x27" ++ v ++ "\x27, expected \x27nosniff\x27"]
    else []

/-- The X-Frame-Options block of `check_security_headers`. -/
def xfoFindingsOf (hs : List (String × String)) : List String :=
  match getTruthy hs "x-frame-options" with
  | none => ["X-Frame-Options missing (consider SAMEORIGIN or DENY)"]
  | some v =>
    if pyLower v ≠ "deny" ∧ pyLower v ≠ "sameorigin" then
      ["X-Frame-Options value \x27" ++ v ++ "\x27 is non-standard; prefer DENY or SAMEORIGIN"]
    else []

/-- The Referrer-Policy block of `check_security_headers`. -/
def rpFindingsOf (hs : List (String × String)) : List String :=
  match getTruthy hs "referrer-policy" with
  | none => ["Referrer-Policy missing (consider \x27strict-origin-when-cross-origin\x27)"]
  | some v =>
    if pyLower v = "no-referrer-when-downgrade" ∨ pyLower v = "unsafe-url" then
      ["Referrer-Policy \x27" ++ v ++ "\x27 is weaker than recommended"]
    else []

/-- The Permissions-Policy block of `check_security_headers`. -/
def ppFindingsOf (hs : List (String × String)) : List String :=
  if (getTruthy hs "permissions-policy").isNone then
    ["Permissions-Policy missing (not critical but recommended)"]
  else []

/-- The X-XSS-Protection block of `check_security_headers`. -/
def xxpFindingsOf (hs : List (String × String)) : List String :=
  match getTruthy hs "x-xss-protection" with
  | none => []
  | some v => ["X-XSS-Protection present (legacy): \x27" ++ v ++ "\x27"]

/-- Source `check_security_headers`: `(missing_required, missing_optional, findings)`,
findings appended in source order. -/
def check_security_headers (resp : Response) : List String × List String × List String :=
  (REQUIRED_HEADERS.filter (fun h => (headerGet resp.headers h).isNone),
   OPTIONAL_HEADERS.filter (fun h => (headerGet resp.headers h).isNone),
   hstsFindingsOf resp.headers ++ cspFindingsOf resp.headers ++ xctoFindingsOf resp.headers ++
     xfoFindingsOf resp.headers ++ rpFindingsOf resp.headers ++ ppFindingsOf resp.headers ++
     xxpFindingsOf resp.headers)

/-- The error-shaped `SiteCheckResult` built by `analyse_target`. -/
def errorSiteResult (url msg : String) : SiteCheckResult :=
  { url := url, final_url := none, scheme := none, status_code := none,
    redirect_chain := "", https_downgrade := false, missing_required_headers := "",
    missing_optional_headers := "", header_findings := "", error := some msg }

/-- The success-shaped `SiteCheckResult` built by `analyse_target` from a
non-empty response chain `r0 :: rs`. -/
def successSiteResult (url : String) (r0 : Response) (rs : List Response) : SiteCheckResult :=
  let final_resp := rs.getLastD r0
  let first_scheme := schemeOf r0.url
  let final_scheme := schemeOf final_resp.url
  let mrf :=
    if !(decide (300 ≤ final_resp.status_code) && decide (final_resp.status_code < 400)) then
      check_security_headers final_resp
    else ([], [], [])
  { url := url
    final_url := some final_resp.url
    scheme := some final_scheme
    status_code := some final_resp.status_code
    redirect_chain := joinWith " -> " ((r0 :: rs).map (fun r => r.url))
    https_downgrade := (first_scheme == "https") && (final_scheme == "http")
    missing_required_headers := joinWith ";" mrf.1
    missing_optional_headers := joinWith ";" mrf.2.1
    header_findings := joinWith " | " mrf.2.2
    error := none }

/-- Source `analyse_target`: normalize (its `ValueError` propagates, modelled as
`Except.error`), fetch, and either report the error (`str(error)` or
`"No response"`) or build the success record, evaluating headers only on a
non-3xx terminal response. -/
def analyse_target (net : String → Except String Response) (ujoin : String → String → String)
    (url0 : String) : Except String SiteCheckResult :=
  match normalize_url url0 with
  | Except.error e => Except.error e
  | Except.ok url =>
    match fetchUrl net ujoin url with
    | ([], err) =>
      Except.ok (errorSiteResult url (match err with | some e => e | none => "No response"))
    | (_ :: _, some e) => Except.ok (errorSiteResult url e)
    | (r0 :: rs, none) => Except.ok (successSiteResult url r0 rs)

/-! ### Spec-side predicates and concrete networks for closed runs -/

/-- The loop condition of the redirect walk, as a predicate on a response. -/
def isRedirectResp (r : Response) : Prop :=
  300 ≤ r.status_code ∧ r.status_code < 400 ∧ (headerGet r.headers "location").isSome = true

instance (r : Response) : Decidable (isRedirectResp r) := by
  unfold isRedirectResp; infer_instance

/-- Concrete network: the start URL answers with a redirect whose `Location`
points at a second URL, and the request for that second URL raises. -/
def exNetC1 : String → Except String Response := fun u =>
  if u = "https://a" then
    Except.ok { url := "https://a", status_code := 302, headers := [("Location", "http://b")] }
  else Except.error "boom"

/-- An `urljoin` stand-in for concrete runs whose locations are absolute URLs. -/
def idJoin : String → String → String := fun _ l => l

/-- Concrete network answering every request with a plain 200 response. -/
def okNet200 : String → Except String Response := fun u =>
  Except.ok { url := u, status_code := 200, headers := [] }

/-- A network answering every request with the same 302 redirect response. -/
def redirNet : String → Except String Response := fun u =>
  Except.ok { url := u, status_code := 302, headers := [("Location", "https://next")] }

/-- A network performing one HTTPS-to-HTTP downgrade redirect. -/
def downgradeNet : String → Except String Response := fun u =>
  if u = "https://a" then
    Except.ok { url := "https://a", status_code := 301, headers := [("Location", "http://b")] }
  else Except.ok { url := "http://b", status_code := 200, headers := [] }

/-- A network whose single response is a redirect status with no `Location`. -/
def locLessNet : String → Except String Response := fun _ =>
  Except.ok { url := "https://a", status_code := 302, headers := [] }

/-- A network answering with a single 200 response whose HSTS `max-age` value
is unparsable. -/
def hstsNet : String → Except String Response := fun _ =>
  Except.ok { url := "https://a", status_code := 200,
              headers := [("Strict-Transport-Security", "max-age=abc")] }

/-- A `TLSResult` freshly produced by `parse_target` carries no observation,
no flags and no error. -/
theorem parse_target_shell (s : String) (t : TLSResult) (h : parse_target s = Except.ok t) :
    t.target = pyStrip s ∧ t.tls_version = none ∧ t.cipher_name = none ∧
    t.cipher_protocol = none ∧ t.cipher_bits = none ∧ t.weak_protocol = false ∧
    t.weak_cipher = false ∧ t.error = none := by
  simp only [parse_target] at h
  split at h
  · exact absurd h (by simp)
  · split at h
    · injection h with h; subst h; simp
    · split at h
      · exact absurd h (by simp)
      · injection h with h; subst h; simp

/-- The redirect walk either keeps everything collected so far and reports no
error, or discards the whole chain and reports an error. -/
theorem fetchGo_spec (net : String → Except String Response) (uj : String → String → String) :
    ∀ (fuel : Nat) (resp : Response) (acc : List Response),
      ((fetchGo net uj resp acc fuel).2 = none ∧
        ∃ ext, (fetchGo net uj resp acc fuel).1 = acc ++ ext) ∨
      ((fetchGo net uj resp acc fuel).2.isSome = true ∧ (fetchGo net uj resp acc fuel).1 = []) := by
  intro fuel
  induction fuel with
  | zero =>
    intro resp acc
    left
    exact ⟨rfl, [], by simp [fetchGo]⟩
  | succ n ih =>
    intro resp acc
    show _ ∨ _
    rw [fetchGo]
    split
    · cases hnet : net (uj resp.url ((headerGet resp.headers "location").getD "")) with
      | error e => right; simp [hnet]
      | ok r =>
        simp only [hnet]
        rcases ih r (acc ++ [r]) with ⟨h1, ext, h2⟩ | ⟨h1, h2⟩
        · left
          refine ⟨h1, [r] ++ ext, ?_⟩
          simpa using h2
        · right; exact ⟨h1, h2⟩
    · left; exact ⟨rfl, [], by simp⟩

/-- Against a network that always answers with a redirect carrying a
`Location` header, the walk stops with exactly 10 collected responses and no
error, and every collected response is still a redirect. -/
theorem fetchGo_all_redirect (net : String → Except String Response)
    (uj : String → String → String)
    (hnet : ∀ u, ∃ r, net u = Except.ok r ∧ isRedirectResp r) :
    ∀ (fuel : Nat) (resp : Response) (acc : List Response), isRedirectResp resp →
      (∀ x ∈ acc, isRedirectResp x) → acc.length + fuel = 11 → 1 ≤ fuel →
      ∃ l, fetchGo net uj resp acc fuel = (l, none) ∧ l.length = 10 ∧
        ∀ x ∈ l, isRedirectResp x := by
  intro fuel
  induction fuel with
  | zero => intro resp acc _ _ _ hf; omega
  | succ n ih =>
    intro resp acc hresp hacc hlen _
    rw [fetchGo]
    by_cases hsmall : acc.length < 10
    · rw [if_pos]
      · obtain ⟨r, hr, hrd⟩ := hnet (uj resp.url ((headerGet resp.headers "location").getD ""))
        simp only [hr]
        apply ih r (acc ++ [r]) hrd
        · intro x hx
          rcases List.mem_append.mp hx with hx | hx
          · exact hacc x hx
          · rcases List.mem_singleton.mp hx with rfl
            exact hrd
        · simp; omega
        · omega
      · obtain ⟨h1, h2, h3⟩ := hresp
        simp [h1, h2, h3, hsmall]
    · rw [if_neg]
      · refine ⟨acc, rfl, by omega, hacc⟩
      · simp [hsmall]

/-- A string cannot be both `https` and `http`, so the downgrade conjunction
is false whenever first and terminal schemes coincide. -/
theorem beq_https_and_http_false (s : String) : ((s == "https") && (s == "http")) = false := by
  cases h : s == "https" with
  | false => simp
  | true =>
    have hs : s = "https" := eq_of_beq h
    subst hs
    decide

/-- The deduplication fold keeps the accumulator duplicate-free. -/
theorem dedup_fold_nodup (l : List String) :
    ∀ acc : List String, acc.Nodup →
      (l.foldl (fun acc t => if acc.contains t then acc else acc ++ [t]) acc).Nodup := by
  induction l with
  | nil => intro acc h; exact h
  | cons a t ih =>
    intro acc h
    simp only [List.foldl]
    by_cases hc : acc.contains a
    · rw [if_pos hc]; exact ih acc h
    · rw [if_neg hc]
      apply ih
      rw [List.nodup_append]
      refine ⟨h, by simp, ?_⟩
      intro x hx
      simp only [List.mem_singleton]
      intro hxa
      subst hxa
      exact hc (List.elem_iff.mpr hx)

/-- The deduplication fold neither loses nor invents entries. -/
theorem dedup_fold_mem (l : List String) :
    ∀ (acc : List String) (x : String),
      (x ∈ l.foldl (fun acc t => if acc.contains t then acc else acc ++ [t]) acc) ↔
        (x ∈ acc ∨ x ∈ l) := by
  induction l with
  | nil => intro acc x; simp
  | cons a t ih =>
    intro acc x
    simp only [List.foldl]
    by_cases hc : acc.contains a
    · rw [if_pos hc, ih]
      have ha : a ∈ acc := List.elem_iff.mp hc
      constructor
      · rintro (hx | hx)
        · exact Or.inl hx
        · exact Or.inr (List.mem_cons_of_mem a hx)
      · rintro (hx | hx)
        · exact Or.inl hx
        · rcases List.mem_cons.mp hx with rfl | hx
          · exact Or.inl ha
          · exact Or.inr hx
    · rw [if_neg hc, ih]
      constructor
      · rintro (hx | hx)
        · rcases List.mem_append.mp hx with hx | hx
          · exact Or.inl hx
          · rcases List.mem_singleton.mp hx with rfl
            exact Or.inr (List.mem_cons_self _ _)
        · exact Or.inr (List.mem_cons_of_mem a hx)
      · rintro (hx | hx)
        · exact Or.inl (List.mem_append.mpr (Or.inl hx))
        · rcases List.mem_cons.mp hx with rfl | hx
          · exact Or.inl (List.mem_append.mpr (Or.inr (List.mem_singleton.mpr rfl)))
          · exact Or.inr hx

/-- The `dedupPreservingOrder` output has no duplicates. -/
theorem dedupPreservingOrder_nodup (l : List String) : (dedupPreservingOrder l).Nodup :=
  dedup_fold_nodup l [] List.nodup_nil

/-- The `dedupPreservingOrder` output has the same members as its input. -/
theorem dedupPreservingOrder_mem (l : List String) (x : String) :
    x ∈ dedupPreservingOrder l ↔ x ∈ l := by
  unfold dedupPreservingOrder
  rw [dedup_fold_mem]
  simp

/-- C1 (amended): the recorded chain is empty if and only if the run recorded
an error — a failure at any hop, not only the first, discards the whole chain;
when no hop fails the chain does begin with the first response. -/
theorem c1_chain_empty_iff_error (net : String → Except String Response)
    (uj : String → String → String) (url : String) :
    ((fetchUrl net uj url).1 = [] ↔ ((fetchUrl net uj url).2).isSome = true) ∧
    (∀ chain, fetchUrl net uj url = (chain, none) →
      ∃ r, net url = Except.ok r ∧ chain.head? = some r) := by
  unfold fetchUrl
  cases hnet : net url with
  | error e =>
    constructor
    · simp
    · intro chain h
      simp at h
  | ok r =>
    rcases fetchGo_spec net uj 10 r [r] with ⟨h1, ext, h2⟩ | ⟨h1, h2⟩
    · constructor
      · rw [h2]
        simp [h1]
      · intro chain h
        refine ⟨r, rfl, ?_⟩
        have h' : fetchGo net uj r [r] 10 = (chain, none) := h
        rw [h'] at h2
        simp at h2
        simp [h2]
    · constructor
      · rw [h2]
        simp [h1]
      · intro chain h
        have h' : fetchGo net uj r [r] 10 = (chain, none) := h
        rw [h'] at h1
        simp at h1

/-- C1, counterexample to the claim as stated: the initial request succeeds
(the oracle returns a 302 response for the start URL), a later hop fails, and
the returned chain is empty rather than containing that first response. -/
theorem c1_counterexample :
    exNetC1 "https://a" =
      Except.ok { url := "https://a", status_code := 302, headers := [("Location", "http://b")] } ∧
    fetchUrl exNetC1 idJoin "https://a" = ([], some "boom") := by
  constructor
  · decide
  · decide

/-- C1, witness: the amended theorem applied to a network whose single request
succeeds with a 200 response. -/
theorem c1_witness :
    ∃ r, okNet200 "https://a" = Except.ok r ∧
      ([({ url := "https://a", status_code := 200, headers := [] } : Response)]).head? = some r :=
  (c1_chain_empty_iff_error okNet200 idJoin "https://a").2
    [{ url := "https://a", status_code := 200, headers := [] }] (by decide)

/-- C3, counterexample to the claim as stated: with no cipher name and a
reported bit length of 64 (present and below 128) the claimed iff demands
`weakCipher = true`, but `is_weak_cipher` returns `false` because a missing
name short-circuits the whole classifier. -/
theorem c3_counterexample :
    ¬ (is_weak_cipher none (some 64) = true ↔
        ((∃ name, (none : Option String) = some name ∧
            (WEAK_CIPHER_SUBSTRINGS.any fun bad => strContains (pyUpper name) bad) = true) ∨
         (∃ bits, (some (64 : Int) : Option Int) = some bits ∧ bits < 128))) := by
  intro h
  have hfalse : is_weak_cipher none (some 64) = true :=
    h.mpr (Or.inr ⟨64, rfl, by decide⟩)
  exact absurd hfalse (by decide)

/-- C3 (amended): `weakCipher` is true iff a non-empty cipher name is present
and either that name (upper-cased) contains one of the deny-list substrings or
the reported bit length is present and below 128; with the name absent or
empty the flag is false regardless of the bit length. -/
theorem c3_weak_cipher_characterisation (name? : Option String) (bits? : Option Int) :
    is_weak_cipher name? bits? = true ↔
      ∃ name, name? = some name ∧ name ≠ "" ∧
        ((WEAK_CIPHER_SUBSTRINGS.any fun bad => strContains (pyUpper name) bad) = true ∨
         ∃ bits, bits? = some bits ∧ bits < 128) := by
  cases name? with
  | none => simp [is_weak_cipher]
  | some name =>
    by_cases hn : name = ""
    · subst hn
      simp [is_weak_cipher]
    · by_cases hsub : (WEAK_CIPHER_SUBSTRINGS.any fun bad => strContains (pyUpper name) bad) = true
      · simp [is_weak_cipher, hn, hsub]
        exact Or.inl (by simpa using hsub)
      · rw [Bool.not_eq_true] at hsub
        cases bits? with
        | none =>
          simp [is_weak_cipher, hn, hsub]
          simpa using hsub
        | some bits =>
          simp [is_weak_cipher, hn, hsub, decide_eq_true_iff]
          intro x hx hc
          rw [List.any_eq_false] at hsub
          exact absurd hc (by simpa using hsub x hx)

/-- C5, counterexample to the claim as stated: the raw target `":0"` is
accepted by `parse_target`, yet the resulting descriptor has an empty host and
port 0, outside [1,65535]. -/
theorem c5_counterexample :
    parse_target ":0" = Except.ok
      { target := ":0", hostname := "", port := 0, tls_version := none,
        cipher_name := none, cipher_protocol := none, cipher_bits := none,
        weak_protocol := false, weak_cipher := false, error := none } ∧
    ¬ (∀ r : TLSResult, parse_target ":0" = Except.ok r →
        r.hostname ≠ "" ∧ 1 ≤ r.port ∧ r.port ≤ 65535) := by
  refine ⟨by decide, ?_⟩
  intro h
  have hr := h
    { target := ":0", hostname := "", port := 0, tls_version := none,
      cipher_name := none, cipher_protocol := none, cipher_bits := none,
      weak_protocol := false, weak_cipher := false, error := none } (by decide)
  exact absurd hr.2.1 (by decide)

/-- C5 (amended): an empty (stripped) target and a non-numeric port are
rejected with a descriptive error; an accepted target without a colon
defaults the port to 443; an accepted target with a colon takes the digits
after the last colon as the port — any decimal value, 0 and values above
65535 included — and the text before it as the host, which may be empty. -/
theorem c5_parse_target_characterisation (s : String) :
    (pyStrip s = "" → parse_target s = Except.error "Empty target entry") ∧
    (∀ r, parse_target s = Except.ok r →
      r.target = pyStrip s ∧ r.target ≠ "" ∧ r.error = none ∧
      ((strContainsChar (pyStrip s) ':' = false ∧ r.hostname = pyStrip s ∧ r.port = 443) ∨
       (strContainsChar (pyStrip s) ':' = true ∧
         pyIsDigit (rsplitColon (pyStrip s)).2 = true ∧
         r.hostname = (rsplitColon (pyStrip s)).1 ∧
         r.port = digitsVal (rsplitColon (pyStrip s)).2.data))) := by
  constructor
  · intro h
    simp [parse_target, h]
  · intro r h
    simp only [parse_target] at h
    split at h
    · exact absurd h (by simp)
    · next hne =>
      split at h
      · next hcolon =>
        injection h with h
        subst h
        simp only [Bool.not_eq_true'] at hcolon
        exact ⟨rfl, hne, rfl, Or.inl ⟨hcolon, rfl, rfl⟩⟩
      · next hcolon =>
        split at h
        · exact absurd h (by simp)
        · next hdig =>
          injection h with h
          subst h
          simp only [Bool.not_eq_true, Bool.not_eq_true', Bool.not_eq_false] at hcolon hdig
          exact ⟨rfl, hne, rfl, Or.inr ⟨hcolon, hdig, rfl, rfl⟩⟩

/-- C5, witness: `example.com` (no colon) is accepted with port 443, and
`h:8443` is accepted with host `h` and port 8443. -/
theorem c5_witness :
    pyIsDigit (rsplitColon (pyStrip "h:8443")).2 = true ∧
    (∀ r, parse_target "h:8443" = Except.ok r →
      r.target = pyStrip "h:8443" ∧ r.target ≠ "" ∧ r.error = none ∧
      ((strContainsChar (pyStrip "h:8443") ':' = false ∧ r.hostname = pyStrip "h:8443" ∧ r.port = 443) ∨
       (strContainsChar (pyStrip "h:8443") ':' = true ∧
         pyIsDigit (rsplitColon (pyStrip "h:8443")).2 = true ∧
         r.hostname = (rsplitColon (pyStrip "h:8443")).1 ∧
         r.port = digitsVal (rsplitColon (pyStrip "h:8443")).2.data))) :=
  ⟨by decide, (c5_parse_target_characterisation "h:8443").2⟩

/-- C10: whenever parsing a raw TLS target fails, the batch loop emits — with
no probe connection attempted (the record is the same for every network
oracle) — a result whose hostname is the raw string, whose port is 0, whose
observation fields are all absent, whose flags are false, and whose error
message starts with `Invalid target format:`. -/
theorem c10_parse_failure_result (net : String → Nat → Except String TLSObs) (s e : String)
    (h : parse_target s = Except.error e) :
    tlsResultFor net s =
      { target := s, hostname := s, port := 0, tls_version := none, cipher_name := none,
        cipher_protocol := none, cipher_bits := none, weak_protocol := false,
        weak_cipher := false, error := some ("Invalid target format: " ++ e) } := by
  unfold tlsResultFor
  rw [h]

/-- C10, witness: the non-numeric port `h:x` produces exactly the error-shaped
result, independently of the (here: failing) network oracle. -/
theorem c10_witness :
    tlsResultFor (fun _ _ => Except.error "net down") "h:x" =
      { target := "h:x", hostname := "h:x", port := 0, tls_version := none, cipher_name := none,
        cipher_protocol := none, cipher_bits := none, weak_protocol := false,
        weak_cipher := false,
        error := some "Invalid target format: Invalid port in target: h:x" } :=
  c10_parse_failure_result (fun _ _ => Except.error "net down") "h:x"
    "Invalid port in target: h:x" (by decide)

/-- When normalization succeeds, `analyse_target` is determined by the case
split on the fetched chain. -/
theorem analyse_target_cases (net : String → Except String Response)
    (uj : String → String → String) (url0 url : String)
    (hn : normalize_url url0 = Except.ok url) :
    analyse_target net uj url0 =
      (match fetchUrl net uj url with
       | ([], err) =>
         Except.ok (errorSiteResult url (match err with | some e => e | none => "No response"))
       | (_ :: _, some e) => Except.ok (errorSiteResult url e)
       | (r0 :: rs, none) => Except.ok (successSiteResult url r0 rs)) := by
  unfold analyse_target
  rw [hn]

/-- C8, counterexample to the claim as stated: `--target " a:443"` is kept
verbatim while `--targets a:443` is trimmed, so the gathered list holds two
entries for the same trimmed target and the batch probes it twice — the
results, keyed by their (stripped) `target` field, are duplicated. -/
theorem c8_counterexample :
    gather_targets (some " a:443") (some "a:443") none = Except.ok [" a:443", "a:443"] ∧
    (runTLSBatch (fun _ _ => Except.error "down") [" a:443", "a:443"]).map (fun r => r.target) =
      ["a:443", "a:443"] ∧
    ¬ (["a:443", "a:443"] : List String).Nodup := by
  refine ⟨by decide, by decide, by decide⟩

/-- C8 (amended): the batch deduplicates by the exact collected string —
`--targets` entries and input-file lines are trimmed at collection but a
`--target` value is used verbatim — keeping first-seen order, and then
produces exactly one result per deduplicated string, in that order. -/
theorem c8_gather_and_batch (target? targets? : Option String) (lines? : Option (List String))
    (net : String → Nat → Except String TLSObs) (ts : List String)
    (h : gather_targets target? targets? lines? = Except.ok ts) :
    ts = dedupPreservingOrder (collectTargets target? targets? lines?) ∧
    ts.Nodup ∧
    (∀ x, x ∈ ts ↔ x ∈ collectTargets target? targets? lines?) ∧
    (runTLSBatch net ts).length = ts.length ∧
    runTLSBatch net ts = ts.map (tlsResultFor net) := by
  simp only [gather_targets] at h
  split at h
  · exact absurd h (by simp)
  · injection h with h
    subst h
    refine ⟨rfl, dedupPreservingOrder_nodup _, ?_, by simp [runTLSBatch], rfl⟩
    intro x
    exact dedupPreservingOrder_mem _ x

/-- C8, witness: the spec example `--target a:443 --targets a:443,b:443`
collapses to the two distinct targets in first-seen order, and one result is
produced per target. -/
theorem c8_witness :
    (["a:443", "b:443"] : List String).Nodup ∧
    runTLSBatch (fun _ _ => Except.error "down") ["a:443", "b:443"] =
      ["a:443", "b:443"].map (tlsResultFor (fun _ _ => Except.error "down")) := by
  have h := c8_gather_and_batch (some "a:443") (some "a:443,b:443") none
    (fun _ _ => Except.error "down") ["a:443", "b:443"] (by decide)
  exact ⟨h.2.1, h.2.2.2.2⟩

/-- C2: for both probes, the error field and the observation group exclude
each other.  TLS: an error-carrying result has every observation field absent
and both weakness flags false, and an error-free result carries the handshake
observation the oracle reported.  HTTP: the error field is set exactly when
the observation fields are absent, and an error-carrying result has every
finding field empty or false. -/
theorem c2_exactly_one_group (tnet : String → Nat → Except String TLSObs) (s : String)
    (net : String → Except String Response) (uj : String → String → String) (url0 : String) :
    (((tlsResultFor tnet s).error).isSome = true →
      (tlsResultFor tnet s).tls_version = none ∧ (tlsResultFor tnet s).cipher_name = none ∧
      (tlsResultFor tnet s).cipher_protocol = none ∧ (tlsResultFor tnet s).cipher_bits = none ∧
      (tlsResultFor tnet s).weak_protocol = false ∧ (tlsResultFor tnet s).weak_cipher = false) ∧
    ((tlsResultFor tnet s).error = none →
      ∃ t obs, parse_target s = Except.ok t ∧ tnet t.hostname t.port = Except.ok obs ∧
        (tlsResultFor tnet s).tls_version = obs.version) ∧
    (∀ res, analyse_target net uj url0 = Except.ok res →
      (((res.error).isSome = true) ↔ res.final_url = none) ∧
      ((res.error).isSome = true →
        res.scheme = none ∧ res.status_code = none ∧ res.redirect_chain = "" ∧
        res.https_downgrade = false ∧ res.missing_required_headers = "" ∧
        res.missing_optional_headers = "" ∧ res.header_findings = "")) := by
  refine ⟨?_, ?_, ?_⟩
  · cases hp : parse_target s with
    | error e =>
      intro _
      simp [tlsResultFor, hp]
    | ok t =>
      obtain ⟨htg, hv, hcn, hcp, hcb, hwp, hwc, herr⟩ := parse_target_shell s t hp
      cases hnet : tnet t.hostname t.port with
      | error e =>
        intro _
        simp [tlsResultFor, check_target, hp, hnet, hv, hcn, hcp, hcb, hwp, hwc]
      | ok obs =>
        intro habs
        exfalso
        cases hc : obs.cipher <;>
          simp [tlsResultFor, check_target, hp, hnet, hc, herr] at habs
  · cases hp : parse_target s with
    | error e =>
      intro habs
      simp [tlsResultFor, hp] at habs
    | ok t =>
      obtain ⟨htg, hv, hcn, hcp, hcb, hwp, hwc, herr⟩ := parse_target_shell s t hp
      cases hnet : tnet t.hostname t.port with
      | error e =>
        intro habs
        simp [tlsResultFor, check_target, hp, hnet] at habs
      | ok obs =>
        intro _
        refine ⟨t, obs, rfl, hnet, ?_⟩
        cases hc : obs.cipher <;> simp [tlsResultFor, check_target, hp, hnet, hc]
  · intro res h
    cases hn : normalize_url url0 with
    | error e =>
      unfold analyse_target at h
      rw [hn] at h
      exact absurd h (by simp)
    | ok url =>
      rw [analyse_target_cases net uj url0 url hn] at h
      rcases hfe : fetchUrl net uj url with ⟨chain, err⟩
      rcases chain with _ | ⟨r0, rs⟩ <;> rcases err with _ | e <;> rw [hfe] at h
      · have h2 : errorSiteResult url "No response" = res := Except.ok.inj h
        subst h2
        exact ⟨by simp [errorSiteResult], fun _ => ⟨rfl, rfl, rfl, rfl, rfl, rfl, rfl⟩⟩
      · have h2 : errorSiteResult url e = res := Except.ok.inj h
        subst h2
        exact ⟨by simp [errorSiteResult], fun _ => ⟨rfl, rfl, rfl, rfl, rfl, rfl, rfl⟩⟩
      · have h2 : successSiteResult url r0 rs = res := Except.ok.inj h
        subst h2
        refine ⟨?_, ?_⟩
        · simp [successSiteResult]
        · intro habs
          simp [successSiteResult] at habs
      · have h2 : errorSiteResult url e = res := Except.ok.inj h
        subst h2
        exact ⟨by simp [errorSiteResult], fun _ => ⟨rfl, rfl, rfl, rfl, rfl, rfl, rfl⟩⟩

/-- C2, witness: a failing TLS oracle yields a result with no observation, and
a failing HTTP fetch yields a result whose error is set and scheme absent. -/
theorem c2_witness :
    (tlsResultFor (fun _ _ => Except.error "down") "h:1").tls_version = none ∧
    (errorSiteResult "https://a" "boom").scheme = none := by
  have h := c2_exactly_one_group (fun _ _ => Except.error "down") "h:1" exNetC1 idJoin "https://a"
  refine ⟨(h.1 (by decide)).1, ?_⟩
  exact ((h.2.2 (errorSiteResult "https://a" "boom") (by decide)).2 (by decide)).1

/-- When the terminal response of a fetched chain is still a redirect, the
success record skips header evaluation entirely. -/
theorem successSiteResult_redirect_skips_headers (url : String) (r0 : Response)
    (rs : List Response) (h3 : 300 ≤ (rs.getLastD r0).status_code)
    (h4 : (rs.getLastD r0).status_code < 400) :
    (successSiteResult url r0 rs).missing_required_headers = "" ∧
    (successSiteResult url r0 rs).missing_optional_headers = "" ∧
    (successSiteResult url r0 rs).header_findings = "" := by
  have hcond : (!(decide (300 ≤ (rs.getLastD r0).status_code) &&
      decide ((rs.getLastD r0).status_code < 400))) = false := by
    have hb : (decide (300 ≤ (rs.getLastD r0).status_code) &&
        decide ((rs.getLastD r0).status_code < 400)) = true := by
      simp only [Bool.and_eq_true, decide_eq_true_eq]
      exact ⟨h3, h4⟩
    rw [hb]
    rfl
  unfold successSiteResult
  simp only [hcond]
  simp [joinWith]

/-- C4: against a network that always redirects with a `Location` header (so
any available redirect sequence exceeds the bound), the probe stops after 10
hops (the chain holds exactly 10 responses), reports success (error unset),
and performs no header evaluation: missing-header lists and findings are
empty. -/
theorem c4_redirect_bound (net : String → Except String Response)
    (uj : String → String → String) (url0 url : String)
    (hn : normalize_url url0 = Except.ok url)
    (hnet : ∀ u, ∃ r, net u = Except.ok r ∧ isRedirectResp r) :
    (fetchUrl net uj url).1.length = 10 ∧ (fetchUrl net uj url).2 = none ∧
    ∃ res, analyse_target net uj url0 = Except.ok res ∧ res.error = none ∧
      res.missing_required_headers = "" ∧ res.missing_optional_headers = "" ∧
      res.header_findings = "" := by
  obtain ⟨r, hr, hrd⟩ := hnet url
  obtain ⟨l, hl, hlen, hall⟩ := fetchGo_all_redirect net uj hnet 10 r [r] hrd
    (by intro x hx; rcases List.mem_singleton.mp hx with rfl; exact hrd) (by simp) (by omega)
  have hfu : fetchUrl net uj url = (l, none) := by
    unfold fetchUrl
    rw [hr]
    exact hl
  refine ⟨by rw [hfu]; exact hlen, by rw [hfu], ?_⟩
  rcases l with _ | ⟨r0, rs⟩
  · simp at hlen
  · have hfin : isRedirectResp (rs.getLastD r0) := hall _ (List.getLastD_mem_cons rs r0)
    obtain ⟨hm1, hm2, hm3⟩ :=
      successSiteResult_redirect_skips_headers url r0 rs hfin.1 hfin.2.1
    refine ⟨successSiteResult url r0 rs, ?_, rfl, hm1, hm2, hm3⟩
    rw [analyse_target_cases net uj url0 url hn, hfu]

/-- C4, witness: the always-redirecting network drives the bound. -/
theorem c4_witness :
    (fetchUrl redirNet idJoin "https://a").1.length = 10 ∧
    (fetchUrl redirNet idJoin "https://a").2 = none ∧
    ∃ res, analyse_target redirNet idJoin "https://a" = Except.ok res ∧ res.error = none ∧
      res.missing_required_headers = "" ∧ res.missing_optional_headers = "" ∧
      res.header_findings = "" :=
  c4_redirect_bound redirNet idJoin "https://a" "https://a" (by decide)
    (fun u => ⟨{ url := u, status_code := 302, headers := [("Location", "https://next")] },
      rfl,
      (by decide :
        (300 : Int) ≤ 302 ∧ (302 : Int) < 400 ∧
          (headerGet [("Location", "https://next")] "location").isSome = true)⟩)

/-- C6: for every successfully fetched chain, `https_downgrade` is true iff
the scheme of the first response URL is `https` and the scheme of the terminal
response URL is `http` — in particular false whenever first and terminal
schemes agree, regardless of hop count or intermediate schemes. -/
theorem c6_https_downgrade_iff (net : String → Except String Response)
    (uj : String → String → String) (url0 url : String) (r0 : Response) (rs : List Response)
    (hn : normalize_url url0 = Except.ok url)
    (hf : fetchUrl net uj url = (r0 :: rs, none)) :
    ∃ res, analyse_target net uj url0 = Except.ok res ∧
      (res.https_downgrade = true ↔
        (schemeOf r0.url = "https" ∧ schemeOf (rs.getLastD r0).url = "http")) := by
  refine ⟨successSiteResult url r0 rs, ?_, ?_⟩
  · rw [analyse_target_cases net uj url0 url hn, hf]
  · unfold successSiteResult
    simp [Bool.and_eq_true, beq_iff_eq]

/-- C6, witness: a chain from `https://a` to `http://b` is flagged as a
downgrade. -/
theorem c6_witness :
    ∃ res, analyse_target downgradeNet idJoin "https://a" = Except.ok res ∧
      res.https_downgrade = true := by
  obtain ⟨res, hres, hiff⟩ := c6_https_downgrade_iff downgradeNet idJoin "https://a" "https://a"
    { url := "https://a", status_code := 301, headers := [("Location", "http://b")] }
    [{ url := "http://b", status_code := 200, headers := [] }] (by decide) (by decide)
  exact ⟨res, hres, hiff.mpr (by decide)⟩

/-- A walk whose current response lacks a `Location` header stops at once,
keeping what was collected and reporting no error. -/
theorem fetchGo_no_location (net : String → Except String Response)
    (uj : String → String → String) (resp : Response) (acc : List Response) (fuel : Nat)
    (hloc : headerGet resp.headers "location" = none) :
    fetchGo net uj resp acc fuel = (acc, none) := by
  cases fuel with
  | zero => rfl
  | succ n =>
    rw [fetchGo, if_neg]
    simp [hloc]

/-- C9: a first response with a 3xx status but no `Location` header ends the
walk immediately — the chain is just that response, the run is a success
(error unset), the 3xx response is reported as final URL / status code, and no
header evaluation is performed (missing-header lists and findings empty). -/
theorem c9_redirect_without_location (net : String → Except String Response)
    (uj : String → String → String) (url0 url : String) (r : Response)
    (hn : normalize_url url0 = Except.ok url)
    (h0 : net url = Except.ok r)
    (h3 : 300 ≤ r.status_code) (h4 : r.status_code < 400)
    (hloc : headerGet r.headers "location" = none) :
    (∀ (acc : List Response) (fuel : Nat), fetchGo net uj r acc fuel = (acc, none)) ∧
    fetchUrl net uj url = ([r], none) ∧
    analyse_target net uj url0 = Except.ok
      { url := url, final_url := some r.url, scheme := some (schemeOf r.url),
        status_code := some r.status_code, redirect_chain := r.url,
        https_downgrade := false, missing_required_headers := "",
        missing_optional_headers := "", header_findings := "", error := none } := by
  have hfu : fetchUrl net uj url = ([r], none) := by
    unfold fetchUrl
    rw [h0]
    exact fetchGo_no_location net uj r [r] 10 hloc
  refine ⟨fun acc fuel => fetchGo_no_location net uj r acc fuel hloc, hfu, ?_⟩
  have hcond : (!(decide (300 ≤ r.status_code) && decide (r.status_code < 400))) = false := by
    have hb : (decide (300 ≤ r.status_code) && decide (r.status_code < 400)) = true := by
      simp only [Bool.and_eq_true, decide_eq_true_eq]
      exact ⟨h3, h4⟩
    rw [hb]
    rfl
  rw [analyse_target_cases net uj url0 url hn, hfu]
  unfold successSiteResult
  simp only [List.getLastD]
  simp only [hcond]
  simp [joinWith, beq_https_and_http_false]

/-- C9, witness: a 302 without `Location` is reported as the successful final
response with no header findings. -/
theorem c9_witness :
    fetchGo locLessNet idJoin { url := "https://a", status_code := 302, headers := [] } [] 5 =
      ([], none) ∧
    fetchUrl locLessNet idJoin "https://a" = ([{ url := "https://a", status_code := 302, headers := [] }], none) ∧
    analyse_target locLessNet idJoin "https://a" = Except.ok
      { url := "https://a", final_url := some "https://a", scheme := some "https",
        status_code := some 302, redirect_chain := "https://a",
        https_downgrade := false, missing_required_headers := "",
        missing_optional_headers := "", header_findings := "", error := none } := by
  have h := c9_redirect_without_location locLessNet idJoin "https://a" "https://a"
    { url := "https://a", status_code := 302, headers := [] }
    (by decide) rfl (by decide) (by decide) (by decide)
  exact ⟨h.1 [] 5, h.2.1, h.2.2⟩

/-- C7: when the HSTS header value carries a `max-age` directive whose value
does not parse as an integer, the classifier emits the informational note
`Could not parse HSTS max-age`, the other header checks still run (the note is
merely prepended to their findings and the missing-header lists are
unaffected), and the probe still succeeds: a fetched chain ending in a
non-3xx response yields a result with `error` unset carrying the findings. -/
theorem c7_hsts_unparsable_note (resp : Response) (v : String)
    (hv : getTruthy resp.headers "strict-transport-security" = some v)
    (hma : strContains (pyLower v) "max-age" = true)
    (heq : strContainsChar
      ((((pySplit v ';').map pyStrip).filter (fun p => pyStartsWith (pyLower p) "max-age")).headD "")
      '=' = true)
    (hparse : pyInt? (afterFirstEq
      ((((pySplit v ';').map pyStrip).filter (fun p => pyStartsWith (pyLower p) "max-age")).headD ""))
      = none) :
    hstsFindingsOf resp.headers = ["Could not parse HSTS max-age"] ∧
    (check_security_headers resp).2.2 =
      "Could not parse HSTS max-age" ::
        (cspFindingsOf resp.headers ++ xctoFindingsOf resp.headers ++ xfoFindingsOf resp.headers ++
         rpFindingsOf resp.headers ++ ppFindingsOf resp.headers ++ xxpFindingsOf resp.headers) ∧
    (check_security_headers resp).1 =
      REQUIRED_HEADERS.filter (fun h => (headerGet resp.headers h).isNone) ∧
    (∀ (net : String → Except String Response) (uj : String → String → String)
        (url0 url : String) (r0 : Response) (rs : List Response),
      normalize_url url0 = Except.ok url →
      fetchUrl net uj url = (r0 :: rs, none) →
      ¬ (300 ≤ (rs.getLastD r0).status_code ∧ (rs.getLastD r0).status_code < 400) →
      ∃ res, analyse_target net uj url0 = Except.ok res ∧ res.error = none ∧
        res.header_findings = joinWith " | " (check_security_headers (rs.getLastD r0)).2.2) := by
  have hh : hstsFindingsOf resp.headers = ["Could not parse HSTS max-age"] := by
    simp only [hstsFindingsOf, hv, hma, heq, hparse, Bool.not_true, if_false, if_true]
    rfl
  refine ⟨hh, ?_, rfl, ?_⟩
  · simp only [check_security_headers, hh]
    simp
  · intro net uj url0 url r0 rs hn hf hnot
    refine ⟨successSiteResult url r0 rs, ?_, rfl, ?_⟩
    · rw [analyse_target_cases net uj url0 url hn, hf]
    · have hb : (decide (300 ≤ (rs.getLastD r0).status_code) &&
          decide ((rs.getLastD r0).status_code < 400)) = false := by
        cases hA : decide (300 ≤ (rs.getLastD r0).status_code) with
        | false => rfl
        | true =>
          cases hB : decide ((rs.getLastD r0).status_code < 400) with
          | false => rfl
          | true => exact absurd ⟨of_decide_eq_true hA, of_decide_eq_true hB⟩ hnot
      have hcond : (!(decide (300 ≤ (rs.getLastD r0).status_code) &&
          decide ((rs.getLastD r0).status_code < 400))) = true := by
        rw [hb]
        rfl
      unfold successSiteResult
      simp only [hcond, if_true]

/-- C7, witness: the value `max-age=abc` yields the informational note and a
successful probe result carrying the joined findings. -/
theorem c7_witness :
    hstsFindingsOf [("Strict-Transport-Security", "max-age=abc")] =
      ["Could not parse HSTS max-age"] ∧
    ∃ res, analyse_target hstsNet idJoin "https://a" = Except.ok res ∧ res.error = none ∧
      res.header_findings = joinWith " | " (check_security_headers
        { url := "https://a", status_code := 200,
          headers := [("Strict-Transport-Security", "max-age=abc")] }).2.2 := by
  have h := c7_hsts_unparsable_note
    { url := "https://a", status_code := 200,
      headers := [("Strict-Transport-Security", "max-age=abc")] }
    "max-age=abc" (by decide) (by decide) (by decide) (by decide)
  exact ⟨h.1, h.2.2.2 hstsNet idJoin "https://a" "https://a"
    { url := "https://a", status_code := 200,
      headers := [("Strict-Transport-Security", "max-age=abc")] }
    [] (by decide) (by decide) (by decide)⟩
